import Mathlib

/-!
Shallow embedding of the `luizbraga_baseapi` login flow:
`models.py` (the user's `full_name` property), `serializers.py`
(`LoginSerializer` field declarations and validation methods),
`views.py` (`LoginAuthToken.post` with the token get-or-create and the
session `login` call) and `pagination.py` (`ApiPagination.get_paginated_response`).

External collaborators (Django's `authenticate` backends and its
`validate_email` syntax check) are passed in as parameters; concrete
instances modelled from the spec are provided for evaluation.
-/

deriving instance DecidableEq for Except

namespace BaseApi

/-- Drop whitespace characters from both ends of a character list. -/
def trimChars (cs : List Char) : List Char :=
  ((cs.dropWhile Char.isWhitespace).reverse.dropWhile Char.isWhitespace).reverse

/-- Python `str.strip()` comparable whitespace trimming, also used by DRF
CharField when `trim_whitespace` is enabled. -/
def pyStrip (s : String) : String := String.mk (trimChars s.data)

/-- Python truthiness of a string: only the empty string is falsy. -/
def strFalsy (s : String) : Bool := s.data.isEmpty

/-- Python truthiness of an optional string: `None` and `""` are falsy. -/
def optFalsy : Option String → Bool
  | none => true
  | some s => strFalsy s

/-- From `models.py`, `ApiUser.full_name`: the `first_name` plus the
`last_name` with a space in between, then stripped. -/
def full_name (first_name last_name : String) : String :=
  pyStrip (first_name ++ " " ++ last_name)

/-- A value appearing in the paginated response dictionary of
`pagination.py`. The items themselves stay abstract (`α`): the wrapper
receives an already-paginated, already-serialized sequence. -/
inductive PageVal (α : Type) where
  | vnum (n : Nat)
  | vstr (s : String)
  | vnull
  | vitems (xs : List α)
deriving DecidableEq

/-- The state `ApiPagination.get_paginated_response` reads: the paginator
counts and the two adjacent-page links (`None` when absent). -/
structure PageContext where
  paginatorCount : Nat
  paginatorNumPages : Nat
  previousLink : Option String
  nextLink : Option String
deriving DecidableEq

/-- A link value is the link string, or null when there is no adjacent page. -/
def linkVal (α : Type) : Option String → PageVal α
  | none => .vnull
  | some s => .vstr s

/-- From `pagination.py`, `ApiPagination.get_paginated_response`: the response
dictionary, in the key order written in the source. -/
def get_paginated_response (α : Type) (ctx : PageContext) (data : List α) :
    List (String × PageVal α) :=
  [("count", .vnum ctx.paginatorCount),
   ("pages", .vnum ctx.paginatorNumPages),
   ("previous", linkVal α ctx.previousLink),
   ("next", linkVal α ctx.nextLink),
   ("results", .vitems data)]

/-- A record of the Identity Store (external collaborator): the fields of
`ApiUser` that the login flow reads, with the stored password kept abstract as
the value `check_password` accepts. -/
structure StoredUser where
  uid : Nat
  username : String
  email : String
  password : String
  first_name : String
  last_name : String
  is_active : Bool
  is_staff : Bool
  is_superuser : Bool
  user_perms : List String
  group_perms : List String
deriving DecidableEq

/-- An authentication backend call: credentials in, optional user out.
Django's `authenticate` never raises for failed credentials. -/
abbrev AuthFn := String → String → Option StoredUser

/-- The raw login request body: each field is present or absent. -/
structure LoginPayload where
  username : Option String
  email : Option String
  password : Option String
deriving DecidableEq

/-- The serializer's validated data after the field stage: `password` is a
required field, so it is always present there. -/
structure FieldData where
  username : Option String
  email : Option String
  password : String
deriving DecidableEq

/-- One entry of a DRF field-stage error dictionary: the field key, the
message and the error code. -/
structure FieldErr where
  field : String
  msg : String
  code : String
deriving DecidableEq

def requiredMsg : String := "This field is required."
def blankMsg : String := "This field may not be blank."
def maxLengthMsg : String := "Ensure this field has no more than 255 characters."
def invalidEmailMsg : String := "Enter a valid email address."
def userNotFoundMsg : String := "User not found"
def requiredShort : String := "required"

/-- DRF validation of the `password` field of `LoginSerializer`: required,
not blank, `trim_whitespace=False` (the raw value is checked, never trimmed),
`max_length=255`. -/
def passwordFieldCheck : Option String → Except FieldErr String
  | none => .error ⟨"password", requiredMsg, "required"⟩
  | some v =>
    if strFalsy v then .error ⟨"password", blankMsg, "blank"⟩
    else if 255 < v.length then .error ⟨"password", maxLengthMsg, "max_length"⟩
    else .ok v

/-- DRF validation of the `email` field (`required=False, allow_blank=True`):
absent or blank values pass; otherwise the trimmed value must be a valid
email. -/
def emailFieldErr (isEmail : String → Bool) : Option String → Option FieldErr
  | none => none
  | some v =>
    if strFalsy (pyStrip v) then none
    else if isEmail (pyStrip v) then none
    else some ⟨"email", invalidEmailMsg, "invalid"⟩

/-- The DRF field stage of `LoginSerializer.is_valid`: runs every declared
field's validation, collecting errors in field declaration order
(`username` never fails; then `email`, then `password`). On success it yields
the validated data, with CharField/EmailField values trimmed. -/
def fieldStage (isEmail : String → Bool) (p : LoginPayload) :
    Except (List FieldErr) FieldData :=
  match passwordFieldCheck p.password, emailFieldErr isEmail p.email with
  | .ok pw, none => .ok ⟨p.username.map pyStrip, p.email.map pyStrip, pw⟩
  | .ok _, some e => .error [e]
  | .error pe, none => .error [pe]
  | .error pe, some e => .error [e, pe]

/-- A Python exception escaping the serializer's `validate` call, with the
class distinction the source's `try/except` turns on: `drfList` and `drfMsg`
are `rest_framework.serializers.ValidationError` (a detail list of
field-keyed pairs, or a message plus code), while `django` is
`django.core.exceptions.ValidationError` as raised by `validate_email` — a
different class that a DRF `except` clause does not catch. -/
inductive VErr where
  | drfList (fields : List (String × String))
  | drfMsg (msg code : String)
  | django (msg code : String)
deriving DecidableEq

/-- From `serializers.py`, `LoginSerializer._validate_username_email`:
build the missing-field message dictionary; if empty, `try` the email-syntax
check and email-strategy authentication, with an `except` clause for DRF
`ValidationError` falling back to `authenticate(user=..., password=...)`.
`validate_email` raises the Django exception class, which passes through the
`except` uncaught. -/
def validate_username_email (isEmail : String → Bool) (authE authU : AuthFn)
    (username_email : Option String) (password : String) :
    Except VErr (Option StoredUser) :=
  let msgU : List (String × String) :=
    if optFalsy username_email then [("username", requiredShort)] else []
  let msgP : List (String × String) :=
    if strFalsy password then [("password", requiredShort)] else []
  let msg := msgU ++ msgP
  if 0 < msg.length then .error (.drfList msg)
  else
    let ue := username_email.getD ""
    let tryBlock : Except VErr (Option StoredUser) :=
      if isEmail ue then .ok (authE ue password)
      else .error (.django invalidEmailMsg "invalid")
    match tryBlock with
    | .error (.django m c) => .error (.django m c)
    | .error _ => .ok (authU ue password)
    | .ok r => .ok r

/-- The serializer's output on success: the validated data dictionary with the
resolved user attached under the `user` key. -/
structure ValidatedOut where
  data : FieldData
  user : StoredUser
deriving DecidableEq

/-- From `serializers.py`, `LoginSerializer.validate`: reads the identifier
from the `username` key only, delegates to `_validate_username_email`, and
turns a `None` user into the generic authorization error. -/
def loginValidate (isEmail : String → Bool) (authE authU : AuthFn)
    (d : FieldData) : Except VErr ValidatedOut :=
  match validate_username_email isEmail authE authU d.username d.password with
  | .error e => .error e
  | .ok none => .error (.drfMsg userNotFoundMsg "authorization")
  | .ok (some u) => .ok ⟨d, u⟩

/-- The serializer's error set as DRF renders it: field-stage errors are keyed
by field; an exception out of `validate` is re-raised under the
`non_field_errors` key — as the message-plus-code detail, or as the nested
list detail when `ValidationError([msg])` was raised with a list. -/
inductive SerErrors where
  | fields (errs : List FieldErr)
  | nonField (msg code : String)
  | nonFieldNested (fields : List (String × String))
deriving DecidableEq

/-- `LoginSerializer.is_valid`, i.e. DRF `run_validation`: the field stage
runs first; only when every field passes is `validate` called, and any
exception it raises (DRF or Django `ValidationError`) becomes the
serializer's non-field error set. -/
def run_validation (isEmail : String → Bool) (authE authU : AuthFn)
    (p : LoginPayload) : Except SerErrors ValidatedOut :=
  match fieldStage isEmail p with
  | .error errs => .error (.fields errs)
  | .ok d =>
    match loginValidate isEmail authE authU d with
    | .ok out => .ok out
    | .error (.drfList fs) => .error (.nonFieldNested fs)
    | .error (.drfMsg m c) => .error (.nonField m c)
    | .error (.django m c) => .error (.nonField m c)

/-- From `serializers.py`, `ApiUserSerializer`: the public user projection. -/
structure UserProjection where
  uid : Nat
  username : String
  email : String
  first_name : String
  last_name : String
  full_name : String
  is_active : Bool
  is_staff : Bool
  is_superuser : Bool
  permissions : List String
deriving DecidableEq

/-- Serialize a user to its projection; `permissions` is the deduplicated
union of group-inherited and direct permission codes, `full_name` the model
property. -/
def apiUserSerializer (u : StoredUser) : UserProjection :=
  ⟨u.uid, u.username, u.email, u.first_name, u.last_name,
   full_name u.first_name u.last_name,
   u.is_active, u.is_staff, u.is_superuser,
   (u.group_perms ++ u.user_perms).eraseDups⟩

/-- The token table: one row per (user id, key) pair, as the DRF authtoken
store with its one-to-one user column. -/
abbrev TokenStore := List (Nat × String)

/-- `Token.objects.get_or_create(user=user)`: return the existing row's key,
or insert a row with a fresh key. The fresh key generation is external
randomness, passed in. Returns (key, created, store). -/
def get_or_create (ts : TokenStore) (uid : Nat) (fresh : String) :
    String × Bool × TokenStore :=
  match ts.find? (fun e => e.1 == uid) with
  | some e => (e.2, false, ts)
  | none => (fresh, true, (uid, fresh) :: ts)

/-- The HTTP response of the login view: 200 with token and projection, or
400 with the serializer errors. -/
inductive HttpResponse where
  | ok200 (token : String) (data : UserProjection)
  | bad400 (errors : SerErrors)
deriving DecidableEq

/-- An exception raised by the session `login(request, user)` call. -/
inductive SessionError where
  | raised
deriving DecidableEq

/-- From `views.py`, `LoginAuthToken.post`: validate, get-or-create the token,
build the response data, call the session `login` (no surrounding
`try/except`: when it raises, no response is returned, though the token row
was already written), then return 200; on invalid input return 400 with the
serializer errors. The outcome pairs the response-or-exception with the token
store after the request. -/
def post (isEmail : String → Bool) (authE authU : AuthFn) (tokens : TokenStore)
    (p : LoginPayload) (fresh : String) (sessionFails : Bool) :
    Except SessionError HttpResponse × TokenStore :=
  match run_validation isEmail authE authU p with
  | .ok out =>
    match get_or_create tokens out.user.uid fresh with
    | (key, _, tokens') =>
      (if sessionFails then .error .raised
       else .ok (.ok200 key (apiUserSerializer out.user)), tokens')
  | .error errs => (.ok (.bad400 errs), tokens)

/-- Modelled from the spec: Django's `validate_email` structural syntax check
(an external collaborator, not under src/): one `@` sign, nonempty local
part, nonempty domain containing a dot, no spaces. -/
def modelValidEmail (s : String) : Bool :=
  let cs := s.data
  let lp := cs.takeWhile (fun c => c ≠ '@')
  match cs.dropWhile (fun c => c ≠ '@') with
  | '@' :: dom =>
    !lp.isEmpty && !dom.isEmpty && !dom.contains '@'
      && dom.contains '.' && !cs.contains ' '
  | _ => false

/-- Modelled from the spec: the Identity Store's email-based lookup strategy
(Django `authenticate` with the `email` keyword resolved through the user
model's `USERNAME_FIELD = email`): find the user by email, verify the
password, and authenticate active users only. -/
def authByEmail (store : List StoredUser) : AuthFn := fun e pw =>
  match store.find? (fun u => u.email == e) with
  | some u => if u.password == pw && u.is_active then some u else none
  | none => none

/-- Modelled from the spec: the username-based lookup strategy the validator's
step 3 is meant to fall back to — find the user by username, verify the
password, active users only. -/
def authByUsername (store : List StoredUser) : AuthFn := fun un pw =>
  match store.find? (fun u => u.username == un) with
  | some u => if u.password == pw && u.is_active then some u else none
  | none => none

/-- Modelled from the spec/Django: `authenticate(user=..., password=...)` with
an unrecognized `user` keyword resolves no username, so the backend returns
`None` for every input. -/
def authUserKw : AuthFn := fun _ _ => none

/-- An email field value that passes the field stage: absent, blank after
trimming, or syntactically valid. -/
def emailFieldOk (isEmail : String → Bool) : Option String → Bool
  | none => true
  | some v => strFalsy (pyStrip v) || isEmail (pyStrip v)

/-- Fixture: an active user for concrete evaluations. -/
def alice : StoredUser :=
  ⟨1, "alice", "alice@example.com", "pw", "Alice", "A", true, false, false, [], []⟩

/-- Fixture: a store containing only `alice`. -/
def aliceStore : List StoredUser := [alice]

/-- Fixture: an active user whose username is not email-shaped. -/
def bob : StoredUser :=
  ⟨2, "bob", "bob@example.com", "pw", "Bob", "B", true, false, false, [], []⟩

/-- Fixture: a store containing only `bob`. -/
def bobStore : List StoredUser := [bob]

end BaseApi

namespace BaseApi

/-- Claim C8: the paginated response wrapper maps an already-paginated item
sequence to exactly the envelope with keys count, pages, previous, next,
results, where count and pages come from the paginator, previous and next are
the adjacent-page links or null, and results is the item sequence unchanged
and in order. -/
theorem C8_pagination_envelope_shape (α : Type) (ctx : PageContext) (data : List α) :
    (get_paginated_response α ctx data).map Prod.fst
        = ["count", "pages", "previous", "next", "results"]
    ∧ List.lookup "count" (get_paginated_response α ctx data)
        = some (.vnum ctx.paginatorCount)
    ∧ List.lookup "pages" (get_paginated_response α ctx data)
        = some (.vnum ctx.paginatorNumPages)
    ∧ List.lookup "previous" (get_paginated_response α ctx data)
        = some (linkVal α ctx.previousLink)
    ∧ List.lookup "next" (get_paginated_response α ctx data)
        = some (linkVal α ctx.nextLink)
    ∧ List.lookup "results" (get_paginated_response α ctx data)
        = some (.vitems data)
    ∧ linkVal α none = .vnull
    ∧ ∀ s : String, linkVal α (some s) = .vstr s := by
  refine ⟨rfl, rfl, rfl, rfl, rfl, rfl, rfl, fun s => rfl⟩

/-- Claim C9: `full_name` joins `first_name` and `last_name` with a single
space and strips surrounding whitespace; on `("Ada", "Lovelace")` it is
`"Ada Lovelace"` and on `("Ada", "")` it is `"Ada"` with no trailing space. -/
theorem C9_full_name_join_and_strip :
    (∀ f l : String, full_name f l = pyStrip (f ++ " " ++ l))
    ∧ full_name "Ada" "Lovelace" = "Ada Lovelace"
    ∧ full_name "Ada" "" = "Ada" := by
  refine ⟨fun f l => rfl, by decide, by decide⟩

/-- Once a user has a token row, a later `get_or_create` returns that row's
key unchanged, creates nothing, and leaves the store as it was. -/
theorem get_or_create_stable (ts : TokenStore) (uid : Nat) (k1 k2 : String) :
    get_or_create (get_or_create ts uid k1).2.2 uid k2
      = ((get_or_create ts uid k1).1, false, (get_or_create ts uid k1).2.2) := by
  unfold get_or_create
  cases h : ts.find? (fun e => e.1 == uid) with
  | some e => simp [h]
  | none => simp [h, List.find?]

/-- Claim C1 (code bug): on the non-email identifier "bob" with a password
present, the validator does not fall back to the username-based lookup, even
though the spec-modelled username strategy would succeed on this store: the
Django `ValidationError` raised by `validate_email` is not a DRF
`serializers.ValidationError`, escapes the `except` clause, and the request
fails with the invalid-email error instead. -/
theorem C1_malformed_email_not_retried_as_username :
    authByUsername bobStore "bob" "pw" = some bob
    ∧ run_validation modelValidEmail (authByEmail bobStore) (authByUsername bobStore)
        ⟨some "bob", none, some "pw"⟩
      = .error (.nonField invalidEmailMsg "invalid") :=
  ⟨by decide, by decide⟩

/-- Claim C4 (code bug): a wrong password for the existing active user yields
the authorization error "User not found", but a nonexistent username-shaped
identifier yields the invalid-email error instead — the two failing attempts
are distinguishable by response content, contrary to the claim. -/
theorem C4_failing_attempts_distinguishable :
    run_validation modelValidEmail (authByEmail aliceStore) authUserKw
        ⟨some "alice@example.com", none, some "badpw"⟩
      = .error (.nonField userNotFoundMsg "authorization")
    ∧ run_validation modelValidEmail (authByEmail aliceStore) authUserKw
        ⟨some "ghost", none, some "badpw"⟩
      = .error (.nonField invalidEmailMsg "invalid")
    ∧ SerErrors.nonField userNotFoundMsg "authorization"
        ≠ SerErrors.nonField invalidEmailMsg "invalid" :=
  ⟨by decide, by decide, by decide⟩

/-- Claim C2 counterexample: a payload carrying the identifier only under the
`email` key is rejected with the username-required error, even though the
credentials are valid (the email-strategy authenticator resolves the active
user) — so the identifier is not accepted under either key. -/
theorem C2_counterexample_email_key_alone_rejected :
    authByEmail aliceStore "alice@example.com" "pw" = some alice
    ∧ run_validation modelValidEmail (authByEmail aliceStore) authUserKw
        ⟨none, some "alice@example.com", some "pw"⟩
      = .error (.nonFieldNested [("username", requiredShort)]) :=
  ⟨by decide, by decide⟩

/-- Claim C2 amended: the validator reads the identifier only from the
`username` field; the `email` field's value is never used — two payloads that
differ only in their (field-stage-passing) email values produce identical
outcomes, so `username` trivially takes precedence because `email` is
ignored entirely. -/
theorem C2_amended_email_field_ignored (isEmail : String → Bool)
    (authE authU : AuthFn) (tokens : TokenStore) (u pw e1 e2 : Option String)
    (fresh : String) (sb : Bool)
    (h1 : emailFieldOk isEmail e1 = true) (h2 : emailFieldOk isEmail e2 = true) :
    post isEmail authE authU tokens ⟨u, e1, pw⟩ fresh sb
      = post isEmail authE authU tokens ⟨u, e2, pw⟩ fresh sb := by
  have he : ∀ e, emailFieldOk isEmail e = true → emailFieldErr isEmail e = none := by
    intro e hok
    cases e with
    | none => rfl
    | some v =>
      simp only [emailFieldOk] at hok
      simp only [emailFieldErr]
      cases hb : strFalsy (pyStrip v) with
      | true => simp
      | false =>
        rw [hb] at hok
        simp only [Bool.false_or] at hok
        simp [hok]
  have he1 := he e1 h1
  have he2 := he e2 h2
  simp only [post, run_validation, fieldStage, he1, he2]
  cases hpw : passwordFieldCheck pw with
  | error pe => rfl
  | ok pwv =>
    simp only [loginValidate]
    cases hv : validate_username_email isEmail authE authU (u.map pyStrip) pwv with
    | error e => cases e <;> rfl
    | ok r =>
      cases r with
      | none => rfl
      | some usr => rfl

/-- Witness for the amended C2: with and without an extra valid email value,
the concrete login outcome is identical. -/
theorem C2_amended_email_field_ignored_witness :
    emailFieldOk modelValidEmail none = true
    ∧ emailFieldOk modelValidEmail (some "x@y.com") = true
    ∧ post modelValidEmail (authByEmail aliceStore) authUserKw []
        ⟨some "alice@example.com", none, some "pw"⟩ "k1" false
      = post modelValidEmail (authByEmail aliceStore) authUserKw []
        ⟨some "alice@example.com", some "x@y.com", some "pw"⟩ "k1" false :=
  ⟨by decide, by decide,
   C2_amended_email_field_ignored modelValidEmail (authByEmail aliceStore) authUserKw []
     (some "alice@example.com") (some "pw") none (some "x@y.com") "k1" false
     (by decide) (by decide)⟩

/-- Claim C3: for an active user with valid credentials (the email-strategy
authenticator resolves the user), two successive logins both return 200 with
a token, the second call returns the very token of the first, and the token
store is unchanged by the second call — issuance is idempotent and no second
token is ever created for a user that already holds one. -/
theorem C3_token_issuance_idempotent (isEmail : String → Bool)
    (store : List StoredUser) (authU : AuthFn) (tokens : TokenStore)
    (p : LoginPayload) (k1 k2 ue pw : String) (u : StoredUser)
    (hu : p.username = some ue) (he : p.email = none) (hp : p.password = some pw)
    (hpw : strFalsy pw = false) (hlen : pw.length ≤ 255)
    (hne : strFalsy (pyStrip ue) = false)
    (hmail : isEmail (pyStrip ue) = true)
    (hauth : authByEmail store (pyStrip ue) pw = some u) :
    ∃ t ts1 r,
      post isEmail (authByEmail store) authU tokens p k1 false
        = (.ok (.ok200 t r), ts1)
      ∧ post isEmail (authByEmail store) authU ts1 p k2 false
        = (.ok (.ok200 t r), ts1) := by
  have hlen' : ¬ 255 < pw.length := Nat.not_lt.mpr hlen
  have hfs : fieldStage isEmail p = .ok ⟨some (pyStrip ue), none, pw⟩ := by
    simp [fieldStage, hu, he, hp, passwordFieldCheck, hpw, hlen', emailFieldErr]
  have hrv : run_validation isEmail (authByEmail store) authU p
      = .ok ⟨⟨some (pyStrip ue), none, pw⟩, u⟩ := by
    simp [run_validation, hfs, loginValidate, validate_username_email, optFalsy,
      hne, hpw, hmail, hauth]
  rcases hgo : get_or_create tokens u.uid k1 with ⟨t, c, ts1⟩
  have hst := get_or_create_stable tokens u.uid k1 k2
  rw [hgo] at hst
  refine ⟨t, ts1, apiUserSerializer u, ?_, ?_⟩
  · simp [post, hrv, hgo]
  · simp only [post, hrv]
    simp [hst]

/-- Witness for C3: a concrete active user logging in twice with the same
valid credentials receives the same token both times. -/
theorem C3_token_issuance_idempotent_witness :
    authByEmail aliceStore "alice@example.com" "pw" = some alice
    ∧ ∃ t ts1 r,
        post modelValidEmail (authByEmail aliceStore) authUserKw []
          ⟨some "alice@example.com", none, some "pw"⟩ "k1" false
          = (.ok (.ok200 t r), ts1)
        ∧ post modelValidEmail (authByEmail aliceStore) authUserKw ts1
          ⟨some "alice@example.com", none, some "pw"⟩ "k2" false
          = (.ok (.ok200 t r), ts1) :=
  ⟨by decide,
   C3_token_issuance_idempotent modelValidEmail aliceStore authUserKw []
     ⟨some "alice@example.com", none, some "pw"⟩ "k1" "k2" "alice@example.com" "pw"
     alice rfl rfl rfl (by decide) (by decide) (by decide) (by decide) (by decide)⟩

/-- Claim C5 counterexample: with the identifier and the password both
absent, the serializer's field stage rejects the request flagging only
`password` — the `username` field (declared optional) is not flagged, so the
400 does not carry both fields. -/
theorem C5_counterexample_both_missing_flags_only_password :
    run_validation modelValidEmail (authByEmail aliceStore) authUserKw
        ⟨none, none, none⟩
      = .error (.fields [⟨"password", requiredMsg, "required"⟩])
    ∧ ([(⟨"password", requiredMsg, "required"⟩ : FieldErr)].map FieldErr.field)
      = ["password"] :=
  ⟨by decide, by decide⟩

/-- Claim C5 amended: whenever the password is absent, validation fails with
a field error keyed to `password` and never flags `username` (the identifier
fields are optional at the field layer and the validator's own dual-flag
check is unreachable); in particular when the identifier is also absent the
400 flags only `password`. -/
theorem C5_amended_missing_password_flags_password (isEmail : String → Bool)
    (authE authU : AuthFn) (p : LoginPayload) (hp : p.password = none) :
    (∃ errs, run_validation isEmail authE authU p = .error (.fields errs)
        ∧ FieldErr.mk "password" requiredMsg "required" ∈ errs
        ∧ ∀ e ∈ errs, e.field ≠ "username")
    ∧ (p.email = none →
        run_validation isEmail authE authU p
          = .error (.fields [⟨"password", requiredMsg, "required"⟩])) := by
  have hfe : ∀ o e, emailFieldErr isEmail o = some e
      → e = ⟨"email", invalidEmailMsg, "invalid"⟩ := by
    intro o e h
    cases o with
    | none => simp [emailFieldErr] at h
    | some v =>
      simp only [emailFieldErr] at h
      cases hb : strFalsy (pyStrip v) with
      | true => simp [hb] at h
      | false =>
        cases hm : isEmail (pyStrip v) with
        | true => simp [hb, hm] at h
        | false =>
          simp [hb, hm] at h
          exact h.symm
  constructor
  · cases hfe2 : emailFieldErr isEmail p.email with
    | none =>
      refine ⟨[⟨"password", requiredMsg, "required"⟩], ?_, ?_, ?_⟩
      · simp [run_validation, fieldStage, hp, passwordFieldCheck, hfe2]
      · simp
      · intro e hmem
        simp only [List.mem_singleton] at hmem
        subst hmem
        decide
    | some e =>
      have h3 := hfe p.email e hfe2
      subst h3
      refine ⟨[⟨"email", invalidEmailMsg, "invalid"⟩,
               ⟨"password", requiredMsg, "required"⟩], ?_, ?_, ?_⟩
      · simp [run_validation, fieldStage, hp, passwordFieldCheck, hfe2]
      · simp
      · intro e hmem
        simp only [List.mem_cons, List.not_mem_nil, or_false] at hmem
        rcases hmem with h4 | h4 <;> subst h4 <;> decide
  · intro hem
    simp [run_validation, fieldStage, hp, hem, passwordFieldCheck, emailFieldErr]

/-- Witness for the amended C5: identifier present, password absent — the
error set is exactly the password-required field error. -/
theorem C5_amended_missing_password_witness :
    (⟨some "alice", none, none⟩ : LoginPayload).password = none
    ∧ ((∃ errs, run_validation modelValidEmail (authByEmail aliceStore) authUserKw
          ⟨some "alice", none, none⟩ = .error (.fields errs)
          ∧ FieldErr.mk "password" requiredMsg "required" ∈ errs
          ∧ ∀ e ∈ errs, e.field ≠ "username")
       ∧ ((⟨some "alice", none, none⟩ : LoginPayload).email = none →
          run_validation modelValidEmail (authByEmail aliceStore) authUserKw
              ⟨some "alice", none, none⟩
            = .error (.fields [⟨"password", requiredMsg, "required"⟩]))) :=
  ⟨rfl, C5_amended_missing_password_flags_password modelValidEmail
     (authByEmail aliceStore) authUserKw ⟨some "alice", none, none⟩ rfl⟩

/-- Claim C6 counterexample: on a valid login whose session-establishment
call raises, the view's outcome is the propagated exception and not the 200
token response — the failure is not swallowed (the token row was still
written before the exception). -/
theorem C6_counterexample_session_failure_not_swallowed :
    post modelValidEmail (authByEmail aliceStore) authUserKw []
        ⟨some "alice@example.com", none, some "pw"⟩ "k1" true
      = (.error .raised, [(1, "k1")])
    ∧ (Except.error SessionError.raised : Except SessionError HttpResponse)
      ≠ .ok (.ok200 "k1" (apiUserSerializer alice)) :=
  ⟨by decide, by decide⟩

/-- Claim C6 amended: the view wraps the session `login` call in no handler:
whenever the serializer validates and the session call raises, the exception
propagates (no 200 response is returned to the caller), while the token
get-or-create has already updated the store. -/
theorem C6_amended_session_failure_propagates (isEmail : String → Bool)
    (authE authU : AuthFn) (tokens : TokenStore) (p : LoginPayload)
    (fresh : String) (out : ValidatedOut)
    (h : run_validation isEmail authE authU p = .ok out) :
    (post isEmail authE authU tokens p fresh true).1 = .error .raised
    ∧ (post isEmail authE authU tokens p fresh true).2
        = (get_or_create tokens out.user.uid fresh).2.2 := by
  rcases hg : get_or_create tokens out.user.uid fresh with ⟨t, c, ts⟩
  constructor <;> simp [post, h, hg]

/-- Witness for the amended C6: a concrete valid login with a failing session
call ends in the propagated exception. -/
theorem C6_amended_session_failure_witness :
    run_validation modelValidEmail (authByEmail aliceStore) authUserKw
        ⟨some "alice@example.com", none, some "pw"⟩
      = .ok ⟨⟨some "alice@example.com", none, "pw"⟩, alice⟩
    ∧ ((post modelValidEmail (authByEmail aliceStore) authUserKw []
          ⟨some "alice@example.com", none, some "pw"⟩ "k1" true).1 = .error .raised
       ∧ (post modelValidEmail (authByEmail aliceStore) authUserKw []
          ⟨some "alice@example.com", none, some "pw"⟩ "k1" true).2
          = (get_or_create [] alice.uid "k1").2.2) :=
  ⟨by decide,
   C6_amended_session_failure_propagates modelValidEmail (authByEmail aliceStore)
     authUserKw [] ⟨some "alice@example.com", none, some "pw"⟩ "k1"
     ⟨⟨some "alice@example.com", none, "pw"⟩, alice⟩ (by decide)⟩

/-- Claim C10: any payload whose password is longer than 255 characters (the
raw, untrimmed value — the field is declared with no whitespace trimming) is
rejected with a field error keyed to `password`, the view returns 400, and
the outcome is independent of the authentication backends, so no
authentication attempt is ever made. -/
theorem C10_long_password_rejected_before_authentication (isEmail : String → Bool)
    (authE1 authU1 authE2 authU2 : AuthFn) (p : LoginPayload) (pw : String)
    (hp : p.password = some pw) (hlen : 255 < pw.length) :
    (∃ errs, run_validation isEmail authE1 authU1 p = .error (.fields errs)
        ∧ FieldErr.mk "password" maxLengthMsg "max_length" ∈ errs
        ∧ ∀ tokens fresh sb,
            post isEmail authE1 authU1 tokens p fresh sb
              = (.ok (.bad400 (.fields errs)), tokens))
    ∧ run_validation isEmail authE1 authU1 p
        = run_validation isEmail authE2 authU2 p := by
  have hne : strFalsy pw = false := by
    unfold strFalsy
    cases hd : pw.data with
    | nil =>
      exfalso
      have h0 : pw.length = 0 := by
        rw [show pw.length = pw.data.length from rfl, hd]
        rfl
      omega
    | cons a l => rfl
  have hpc : passwordFieldCheck p.password
      = .error ⟨"password", maxLengthMsg, "max_length"⟩ := by
    rw [hp]
    simp [passwordFieldCheck, hne, hlen]
  cases hfe : emailFieldErr isEmail p.email with
  | none =>
    have hfs : fieldStage isEmail p
        = .error [⟨"password", maxLengthMsg, "max_length"⟩] := by
      simp [fieldStage, hpc, hfe]
    refine ⟨⟨[⟨"password", maxLengthMsg, "max_length"⟩], ?_, ?_, ?_⟩, ?_⟩
    · simp [run_validation, hfs]
    · simp
    · intro tokens fresh sb
      simp [post, run_validation, hfs]
    · simp [run_validation, hfs]
  | some e =>
    have hfs : fieldStage isEmail p
        = .error [e, ⟨"password", maxLengthMsg, "max_length"⟩] := by
      simp [fieldStage, hpc, hfe]
    refine ⟨⟨[e, ⟨"password", maxLengthMsg, "max_length"⟩], ?_, ?_, ?_⟩, ?_⟩
    · simp [run_validation, hfs]
    · simp
    · intro tokens fresh sb
      simp [post, run_validation, hfs]
    · simp [run_validation, hfs]

set_option maxRecDepth 10000 in
/-- Witness for C10: a 256-character all-whitespace password is rejected with
the password max-length error, with identical outcomes under two different
authentication backends. -/
theorem C10_long_password_witness :
    255 < (String.mk (List.replicate 256 ' ')).length
    ∧ ((∃ errs, run_validation modelValidEmail (authByEmail aliceStore) authUserKw
          ⟨none, none, some (String.mk (List.replicate 256 ' '))⟩
          = .error (.fields errs)
          ∧ FieldErr.mk "password" maxLengthMsg "max_length" ∈ errs
          ∧ ∀ tokens fresh sb,
              post modelValidEmail (authByEmail aliceStore) authUserKw tokens
                ⟨none, none, some (String.mk (List.replicate 256 ' '))⟩ fresh sb
                = (.ok (.bad400 (.fields errs)), tokens))
       ∧ run_validation modelValidEmail (authByEmail aliceStore) authUserKw
            ⟨none, none, some (String.mk (List.replicate 256 ' '))⟩
          = run_validation modelValidEmail (authByEmail bobStore) (authByUsername bobStore)
            ⟨none, none, some (String.mk (List.replicate 256 ' '))⟩) :=
  ⟨by decide,
   C10_long_password_rejected_before_authentication modelValidEmail
     (authByEmail aliceStore) authUserKw (authByEmail bobStore) (authByUsername bobStore)
     ⟨none, none, some (String.mk (List.replicate 256 ' '))⟩
     (String.mk (List.replicate 256 ' ')) rfl (by decide)⟩

end BaseApi
